import Mathlib

/-!
Shallow embedding of the `perso` RAG chat CLI (`src/main.rs`).

The program is a single Rust file: it loads a PDF, embeds its text, stores
the embedding in an in-memory vector store, and runs a console chat loop
(`run_chat_loop`) that answers each non-empty query through a completion
service.  The embedding below models:

* the chat loop (`run_chat_loop`, lines 87-121) as a recursive function over
  an explicit stream of console events, with the external completion service
  abstracted as a function from the query string to a result;
* `main` (lines 17-46), `create_ollama_client`, `load_pdf_content` and
  `build_vector_store` over an environment that fixes the outcome of each
  external effect (client construction, file existence, PDF text
  extraction, embedding calls);
* the vector index, whose `query` implementation lives in the external
  `rig` crate and not in this repository, modelled from the specification
  (section 4.3): brute-force scoring by normalized dot product, stable
  descending sort, take `k`.

Rust `anyhow` contexts are modelled as `"context: cause"` message strings;
real-number similarity scores are modelled as rationals.
-/

namespace Perso

/-- Model of Rust `str::trim` (used at `src/main.rs:102`): remove leading and
trailing whitespace.  Defined on the underlying character list so that it is
kernel-reducible (Lean's own `String.trim` is not). -/
def trim (s : String) : String :=
  ⟨((s.data.dropWhile Char.isWhitespace).reverse.dropWhile Char.isWhitespace).reverse⟩

/-- One console event feeding an iteration of the chat loop: the prompt flush
can fail, the read can fail, or a line is read successfully.  End-of-file is a
successful read that leaves the buffer empty, i.e. `line ""`. -/
inductive LineEvent where
  | flushErr (e : String)
  | readErr (e : String)
  | line (s : String)
  deriving DecidableEq, Repr

/-- Observable output events of the program, in emission order. -/
inductive Event where
  | readingMsg
  | creatingMsg
  | readyBanner
  | promptPrint
  | thinking
  | completionCall (q : String)
  | response (r : String)
  | errorMsg (e : String)
  | farewell
  deriving DecidableEq, Repr

/-- Outcome of the chat loop: `ok` models `break` followed by `Ok(())`, `err`
models an early `return Err(..)` from `?`, and `outOfFuel` means the event
stream was exhausted while the loop was still running. -/
inductive LoopOutcome where
  | ok
  | err (e : String)
  | outOfFuel
  deriving DecidableEq, Repr

/-- Loop body of `run_chat_loop` (`src/main.rs:93-118`): every iteration
prints the prompt and flushes (fatal on failure), reads a line (fatal on
failure, with the anyhow context `Failed to read user input`), trims it, and
matches: `exit` or `quit` prints the farewell and breaks with success; an
empty line continues; any other line prints the thinking notice, calls the
completion service with the trimmed query, and prints the response or the
error before continuing. -/
def chatLoop (svc : String → Except String String) :
    List LineEvent → List Event × LoopOutcome
  | [] => ([], .outOfFuel)
  | .flushErr e :: _ => ([.promptPrint], .err e)
  | .readErr e :: _ => ([.promptPrint], .err ("Failed to read user input: " ++ e))
  | .line s :: rest =>
    let query := trim s
    if query = "exit" ∨ query = "quit" then
      ([.promptPrint, .farewell], .ok)
    else if query = "" then
      let r := chatLoop svc rest
      (.promptPrint :: r.1, r.2)
    else
      match svc query with
      | .ok resp =>
        let r := chatLoop svc rest
        (.promptPrint :: .thinking :: .completionCall query :: .response resp :: r.1, r.2)
      | .error e =>
        let r := chatLoop svc rest
        (.promptPrint :: .thinking :: .completionCall query :: .errorMsg e :: r.1, r.2)

/-- The function `run_chat_loop` (`src/main.rs:87-121`): prints the ready
banner, then runs the loop. -/
def run_chat_loop (svc : String → Except String String) (events : List LineEvent) :
    List Event × LoopOutcome :=
  let r := chatLoop svc events
  (.readyBanner :: r.1, r.2)

/-- Events a single responding turn emits after its prompt, as a function of
the completion service and the trimmed query alone. -/
def turnTail (svc : String → Except String String) (q : String) : List Event :=
  match svc q with
  | .ok resp => [.thinking, .completionCall q, .response resp]
  | .error e => [.thinking, .completionCall q, .errorMsg e]

/-- The constant `PDF_PATH` (`src/main.rs:10`). -/
def PDF_PATH : String := "knowledge.pdf"

/-- The function `load_pdf_content` (`src/main.rs:55-66`) over an environment
giving the file-existence check and the `pdf_extract::extract_text` result:
if the path does not exist it bails with a message naming the path, otherwise
it returns the extraction result with the anyhow context
`Failed to extract text from PDF`. -/
def load_pdf_content (fileExists : Bool) (extract : Except String String)
    (path : String) : Except String String :=
  if fileExists then
    match extract with
    | .ok t => .ok t
    | .error e => .error ("Failed to extract text from PDF: " ++ e)
  else
    .error ("File \x27" ++ path ++ "\x27 not found! Please place it in the project folder.")

/-- Environment fixing the outcome of every fallible external effect of
`main`: `clientBuild` is the Ollama client builder result
(`create_ollama_client`), `fileExists` the filesystem check at `PDF_PATH`,
`extract` the PDF text-extraction result, `docAdd` the
`EmbeddingsBuilder::document` result and `embed` the embedding built for the
single document (`build_vector_store`). -/
structure InitEnv where
  clientBuild : Except String Unit
  fileExists : Bool
  extract : Except String String
  docAdd : Except String Unit
  embed : Except String (List ℚ)

/-- The function `build_vector_store` (`src/main.rs:72-85`) over the
environment: adding the document and building the embeddings each carry their
anyhow context; on success the store holds the single entry
`(content, embedding)`. -/
def build_vector_store (env : InitEnv) (content : String) :
    Except String (List (String × List ℚ)) :=
  match env.docAdd with
  | .error e => .error ("Failed to create document embedding: " ++ e)
  | .ok _ =>
    match env.embed with
    | .error e => .error ("Failed to build embeddings: " ++ e)
    | .ok v => .ok [(content, v)]

/-- Process outcome of `main`: anyhow turns an `Err` return into a non-zero
exit status, an `Ok` return exits with success; `running` means the console
event stream ran out while the loop was still going. -/
inductive ProcOutcome where
  | exitSuccess
  | exitFailure (msg : String)
  | running
  deriving DecidableEq, Repr

/-- The function `main` (`src/main.rs:17-46`): build the client, print the
reading notice, load the PDF, print the embedding notice, build the vector
store, then run the chat loop; each fallible step propagates its error with
`?`, ending the process with a non-zero status. -/
def main_run (env : InitEnv) (svc : String → Except String String)
    (events : List LineEvent) : List Event × ProcOutcome :=
  match env.clientBuild with
  | .error e => ([], .exitFailure ("Failed to create Ollama client: " ++ e))
  | .ok _ =>
    match load_pdf_content env.fileExists env.extract PDF_PATH with
    | .error e => ([.readingMsg], .exitFailure e)
    | .ok content =>
      match build_vector_store env content with
      | .error e => ([.readingMsg, .creatingMsg], .exitFailure e)
      | .ok _ =>
        let r := run_chat_loop svc events
        ([.readingMsg, .creatingMsg] ++ r.1,
          match r.2 with
          | .ok => .exitSuccess
          | .err e => .exitFailure e
          | .outOfFuel => .running)

/-- Successful initialization: every fallible step before the chat loop
succeeds. -/
def initOk (env : InitEnv) : Prop :=
  env.clientBuild = .ok () ∧ env.fileExists = true ∧ (∃ t, env.extract = .ok t) ∧
    env.docAdd = .ok () ∧ ∃ v, env.embed = .ok v

/-- Modelled from the spec: the similarity score of the Vector Index
(section 4.3), cosine similarity as normalized dot product; rig's
`InMemoryVectorStore` scoring is not part of this repository's sources.
Vectors are taken as already normalized, so the score is the dot product. -/
def dotScore (u v : List ℚ) : ℚ :=
  (List.zipWith (fun a b => a * b) u v).sum

/-- Ranking relation of the Vector Index: `a` is ranked at or before `b` when
the score of `b` is at most the score of `a` (highest first). -/
def scoreGe (a b : String × ℚ) : Prop :=
  b.2 ≤ a.2

instance : DecidableRel scoreGe :=
  fun a b => inferInstanceAs (Decidable (b.2 ≤ a.2))

instance : IsTotal (String × ℚ) scoreGe :=
  ⟨fun a b => le_total b.2 a.2⟩

instance : IsTrans (String × ℚ) scoreGe :=
  ⟨fun _ _ _ h1 h2 => le_trans h2 h1⟩

/-- Modelled from the spec: scoring pass of the Vector Index query — every
stored entry, in insertion order, paired with its similarity to the query
vector. -/
def scoredEntries (idx : List (String × List ℚ)) (v : List ℚ) :
    List (String × ℚ) :=
  idx.map (fun e => (e.1, dotScore v e.2))

/-- Modelled from the spec: `query(v, k)` of the Vector Index (section 4.3) —
score every entry, sort by non-increasing score with a stable sort (ties keep
insertion order), return the first `k`. -/
def query (idx : List (String × List ℚ)) (v : List ℚ) (k : Nat) :
    List (String × ℚ) :=
  (List.insertionSort scoreGe (scoredEntries idx v)).take k

/-- Completion service used in concrete instantiations: it fails on the query
`bad` and answers `fine` on every other query. -/
def svcFaulty : String → Except String String :=
  fun q => if q = "bad" then .error ("boom") else .ok ("fine")

/-- Environment in which every initialization step succeeds. -/
def envOk : InitEnv :=
  ⟨.ok (), true, .ok ("text"), .ok (), .ok []⟩

/-- Environment in which the Ollama client construction fails. -/
def envNoClient : InitEnv :=
  ⟨.error ("down"), true, .ok ("text"), .ok (), .ok []⟩

/-- Environment in which the PDF file is missing. -/
def envNoFile : InitEnv :=
  ⟨.ok (), false, .error ("unused"), .ok (), .ok []⟩

/-- Environment in which the PDF exists but text extraction fails. -/
def envBadPdf : InitEnv :=
  ⟨.ok (), true, .error ("corrupt"), .ok (), .ok []⟩

/-- Environment in which adding the document to the embeddings builder
fails. -/
def envBadDoc : InitEnv :=
  ⟨.ok (), true, .ok ("text"), .error ("too long"), .ok []⟩

/-- Environment in which building the embeddings fails. -/
def envBadEmbed : InitEnv :=
  ⟨.ok (), true, .ok ("text"), .ok (), .error ("offline")⟩

/-- Handling of a read line depends only on its trimmed form. -/
theorem chatLoop_line_congr (svc : String → Except String String) (s1 s2 : String)
    (rest : List LineEvent) (h : trim s1 = trim s2) :
    chatLoop svc (.line s1 :: rest) = chatLoop svc (.line s2 :: rest) := by
  simp only [chatLoop, h]

/-- A responding turn: a line whose trimmed form is neither `exit`, `quit`
nor empty emits the prompt and the turn tail for its query, then continues
with the remaining events. -/
theorem chatLoop_line_turn (svc : String → Except String String) (s : String)
    (rest : List LineEvent) (hx : trim s ≠ "exit") (hq : trim s ≠ "quit")
    (he : trim s ≠ "") :
    chatLoop svc (.line s :: rest) =
      (.promptPrint :: (turnTail svc (trim s) ++ (chatLoop svc rest).1),
        (chatLoop svc rest).2) := by
  have hor : ¬ (trim s = "exit" ∨ trim s = "quit") := by
    intro h
    cases h with
    | inl h => exact hx h
    | inr h => exact hq h
  cases hsvc : svc (trim s) with
  | ok r => simp [chatLoop, hor, he, turnTail, hsvc]
  | error e => simp [chatLoop, hor, he, turnTail, hsvc]

/-- Runs of the chat loop compose: if the first part of the event stream
leaves the loop still running, the events of the whole run are the events of
the first part followed by the events of the rest. -/
theorem chatLoop_append (svc : String → Except String String)
    (t : List LineEvent) :
    ∀ h : List LineEvent, (chatLoop svc h).2 = .outOfFuel →
      chatLoop svc (h ++ t) =
        ((chatLoop svc h).1 ++ (chatLoop svc t).1, (chatLoop svc t).2) := by
  intro h
  induction h with
  | nil => intro _; simp [chatLoop]
  | cons ev rest ih =>
    intro hrun
    cases ev with
    | flushErr e => simp [chatLoop] at hrun
    | readErr e => simp [chatLoop] at hrun
    | line s =>
      by_cases hor : trim s = "exit" ∨ trim s = "quit"
      · simp [chatLoop, hor] at hrun
      · by_cases he : trim s = ""
        · have hrun2 : (chatLoop svc rest).2 = .outOfFuel := by
            simpa [chatLoop, hor, he] using hrun
          simp [List.cons_append, chatLoop, hor, he, ih hrun2]
        · cases hsvc : svc (trim s) with
          | ok r =>
            have hrun2 : (chatLoop svc rest).2 = .outOfFuel := by
              simpa [chatLoop, hor, he, hsvc] using hrun
            simp [List.cons_append, chatLoop, hor, he, hsvc, ih hrun2]
          | error e =>
            have hrun2 : (chatLoop svc rest).2 = .outOfFuel := by
              simpa [chatLoop, hor, he, hsvc] using hrun
            simp [List.cons_append, chatLoop, hor, he, hsvc, ih hrun2]

/-- C1: transition rules of the chat loop on one read line, after trimming:
`exit` or `quit` prints the farewell and terminates the loop with success
(and, after a successful initialization, the whole process exits with success
status); an empty trimmed line performs no completion call and continues with
the loop state unchanged; any other trimmed line attempts a completion for
exactly that query. -/
theorem chat_loop_transition_rules (svc : String → Except String String)
    (s : String) (rest : List LineEvent) :
    (trim s = "exit" ∨ trim s = "quit" →
      chatLoop svc (.line s :: rest) = ([.promptPrint, .farewell], .ok)) ∧
    (trim s = "" →
      chatLoop svc (.line s :: rest) =
        (.promptPrint :: (chatLoop svc rest).1, (chatLoop svc rest).2)) ∧
    (trim s ≠ "exit" → trim s ≠ "quit" → trim s ≠ "" →
      chatLoop svc (.line s :: rest) =
        (.promptPrint :: (turnTail svc (trim s) ++ (chatLoop svc rest).1),
          (chatLoop svc rest).2)) ∧
    (∀ env : InitEnv, initOk env → trim s = "exit" ∨ trim s = "quit" →
      (main_run env svc (.line s :: rest)).2 = .exitSuccess) := by
  refine ⟨?_, ?_, chatLoop_line_turn svc s rest, ?_⟩
  · intro h
    simp only [chatLoop]
    rw [if_pos h]
  · intro h
    simp [chatLoop, h]
  · intro env henv hor
    obtain ⟨hc, hf, ⟨t, ht⟩, hd, ⟨v, hv⟩⟩ := henv
    have hloop : chatLoop svc (.line s :: rest) = ([.promptPrint, .farewell], .ok) := by
      simp only [chatLoop]
      rw [if_pos hor]
    simp [main_run, hc, hf, ht, hd, hv, load_pdf_content, build_vector_store,
      run_chat_loop, hloop]

/-- Concrete instantiation of the C1 transition rules: a padded `exit` line
terminates with a farewell, a whitespace-only line only re-prompts, a plain
query goes to the completion service, and a `quit` line makes the whole
process exit with success. -/
theorem chat_loop_transition_rules_witness :
    (chatLoop svcFaulty [.line (" exit ")] = ([.promptPrint, .farewell], .ok)) ∧
    (chatLoop svcFaulty [.line ("  ")] =
      (.promptPrint :: (chatLoop svcFaulty []).1, (chatLoop svcFaulty []).2)) ∧
    (chatLoop svcFaulty [.line ("hi")] =
      (.promptPrint :: (turnTail svcFaulty (trim ("hi")) ++ (chatLoop svcFaulty []).1),
        (chatLoop svcFaulty []).2)) ∧
    ((main_run envOk svcFaulty [.line ("quit")]).2 = .exitSuccess) :=
  ⟨(chat_loop_transition_rules svcFaulty (" exit ") []).1 (Or.inl (by decide)),
    (chat_loop_transition_rules svcFaulty ("  ") []).2.1 (by decide),
    (chat_loop_transition_rules svcFaulty ("hi") []).2.2.1 (by decide) (by decide) (by decide),
    (chat_loop_transition_rules svcFaulty ("quit") []).2.2.2 envOk
      ⟨rfl, rfl, ⟨"text", rfl⟩, rfl, ⟨[], rfl⟩⟩ (Or.inr (by decide))⟩

/-- C2: a completion-service failure in one turn is surfaced as an error
message and is not fatal: the turn emits the prompt, the thinking notice, the
completion call and the error message, and the loop then continues with the
remaining events exactly as it would have, so a later query can still
succeed. -/
theorem turn_error_not_fatal (svc : String → Except String String)
    (s e : String) (rest : List LineEvent) (hx : trim s ≠ "exit")
    (hq : trim s ≠ "quit") (he : trim s ≠ "") (herr : svc (trim s) = .error e) :
    chatLoop svc (.line s :: rest) =
      (.promptPrint :: .thinking :: .completionCall (trim s) :: .errorMsg e ::
        (chatLoop svc rest).1, (chatLoop svc rest).2) := by
  have h := chatLoop_line_turn svc s rest hx hq he
  rw [h, turnTail, herr]
  simp

/-- Concrete instantiation of C2: the query `bad` fails with an error
message, after which the query `good` still succeeds and `exit` still
terminates the session with a farewell. -/
theorem turn_error_not_fatal_witness :
    chatLoop svcFaulty [.line ("bad"), .line ("good"), .line ("exit")] =
      ([.promptPrint, .thinking, .completionCall ("bad"), .errorMsg ("boom"),
        .promptPrint, .thinking, .completionCall ("good"), .response ("fine"),
        .promptPrint, .farewell], .ok) := by
  have h := turn_error_not_fatal svcFaulty ("bad") ("boom")
    [.line ("good"), .line ("exit")] (by decide) (by decide) (by decide) rfl
  rw [h]
  decide

/-- C8: no state is carried from one conversation turn to the next: two runs
whose event histories both leave the loop running and which then read lines
with the same non-empty trimmed query append exactly the same turn events —
the prompt followed by `turnTail svc (trim s1)`, a function of the completion
service and the current query alone; prior queries, context and answers have
no effect. -/
theorem turn_history_independent (svc : String → Except String String)
    (h1 h2 : List LineEvent) (s1 s2 : String) (hq : trim s1 = trim s2)
    (he : trim s1 ≠ "") (hx : trim s1 ≠ "exit") (hqt : trim s1 ≠ "quit")
    (hr1 : (chatLoop svc h1).2 = .outOfFuel)
    (hr2 : (chatLoop svc h2).2 = .outOfFuel) :
    chatLoop svc (h1 ++ [.line s1]) =
      ((chatLoop svc h1).1 ++ .promptPrint :: turnTail svc (trim s1),
        .outOfFuel) ∧
    chatLoop svc (h2 ++ [.line s2]) =
      ((chatLoop svc h2).1 ++ .promptPrint :: turnTail svc (trim s1),
        .outOfFuel) := by
  have hsingle : chatLoop svc [.line s1] =
      (.promptPrint :: turnTail svc (trim s1), .outOfFuel) := by
    have h := chatLoop_line_turn svc s1 [] hx hqt he
    simpa [chatLoop] using h
  have hsingle2 : chatLoop svc [.line s2] =
      (.promptPrint :: turnTail svc (trim s1), .outOfFuel) := by
    rw [show ([LineEvent.line s2] : List LineEvent) = .line s2 :: ([] : List LineEvent) from rfl,
      chatLoop_line_congr svc s2 s1 [] hq.symm]
    exact hsingle
  constructor
  · rw [chatLoop_append svc [.line s1] h1 hr1, hsingle]
  · rw [chatLoop_append svc [.line s2] h2 hr2, hsingle2]

/-- Concrete instantiation of C8: after the unrelated histories consisting of
the query `a` and of the query `b` followed by a blank line, the query `q`
is handled by appending exactly the same events in both runs. -/
theorem turn_history_independent_witness :
    chatLoop svcFaulty ([.line ("a")] ++ [.line ("q")]) =
      ((chatLoop svcFaulty [.line ("a")]).1 ++
        .promptPrint :: turnTail svcFaulty (trim ("q")), .outOfFuel) ∧
    chatLoop svcFaulty ([.line ("b"), .line ("")] ++ [.line ("q")]) =
      ((chatLoop svcFaulty [.line ("b"), .line ("")]).1 ++
        .promptPrint :: turnTail svcFaulty (trim ("q")), .outOfFuel) :=
  turn_history_independent svcFaulty [.line ("a")] [.line ("b"), .line ("")]
    ("q") ("q") rfl (by decide) (by decide) (by decide) (by decide) (by decide)

/-- C9: the chat loop terminates normally only on `exit` or `quit`: at
end-of-file every read succeeds with an empty buffer (modelled as reading the
line `""`), which the loop treats as empty input, so a run over any number of
end-of-file reads only re-prompts, never reaches the terminated state, and is
still running when the stream runs out. -/
theorem eof_never_terminates (svc : String → Except String String) :
    ∀ n : Nat, chatLoop svc (List.replicate n (.line (""))) =
      (List.replicate n Event.promptPrint, .outOfFuel) := by
  intro n
  induction n with
  | zero => simp [chatLoop]
  | succ n ih =>
    have ht : trim ("") = "" := by decide
    have hor : ¬ ((("" : String)) = "exit" ∨ (("" : String)) = "quit") := by decide
    simp [List.replicate_succ, chatLoop, ht, hor, ih]

/-- C10: unlike a completion failure, an I/O error while flushing the prompt
or reading a line is fatal: the loop stops at once with an error outcome and
no farewell, and after a successful initialization the process exits with a
non-zero status carrying that error (the read error wrapped in its anyhow
context). -/
theorem io_error_fatal (svc : String → Except String String) (e : String)
    (rest : List LineEvent) (env : InitEnv) (henv : initOk env) :
    chatLoop svc (.flushErr e :: rest) = ([.promptPrint], .err e) ∧
    chatLoop svc (.readErr e :: rest) =
      ([.promptPrint], .err ("Failed to read user input: " ++ e)) ∧
    (main_run env svc (.flushErr e :: rest)).2 = .exitFailure e ∧
    (main_run env svc (.readErr e :: rest)).2 =
      .exitFailure ("Failed to read user input: " ++ e) ∧
    Event.farewell ∉ (main_run env svc (.flushErr e :: rest)).1 := by
  obtain ⟨hc, hf, ⟨t, ht⟩, hd, ⟨v, hv⟩⟩ := henv
  refine ⟨by simp [chatLoop], by simp [chatLoop], ?_, ?_, ?_⟩ <;>
    simp [main_run, hc, hf, ht, hd, hv, load_pdf_content, build_vector_store,
      run_chat_loop, chatLoop]

/-- Concrete instantiation of C10: with a fully successful initialization, a
flush failure and a read failure each abort the process with a non-zero
status and without a farewell. -/
theorem io_error_fatal_witness :
    chatLoop svcFaulty [.flushErr ("pipe closed")] = ([.promptPrint], .err ("pipe closed")) ∧
    chatLoop svcFaulty [.readErr ("pipe closed")] =
      ([.promptPrint], .err ("Failed to read user input: " ++ "pipe closed")) ∧
    (main_run envOk svcFaulty [.flushErr ("pipe closed")]).2 = .exitFailure ("pipe closed") ∧
    (main_run envOk svcFaulty [.readErr ("pipe closed")]).2 =
      .exitFailure ("Failed to read user input: " ++ "pipe closed") ∧
    Event.farewell ∉ (main_run envOk svcFaulty [.flushErr ("pipe closed")]).1 :=
  io_error_fatal svcFaulty ("pipe closed") [] envOk
    ⟨rfl, rfl, ⟨"text", rfl⟩, rfl, ⟨[], rfl⟩⟩

/-- C3: every initialization failure — client construction, missing PDF,
failed text extraction, failed document add, failed embeddings build — makes
the process exit with a non-zero status and a descriptive message, and the
emitted events stop before the chat loop: no ready banner, no prompt, and no
console line is ever consumed. -/
theorem init_failure_fatal (env : InitEnv) (svc : String → Except String String)
    (events : List LineEvent) :
    (∀ e, env.clientBuild = .error e →
      main_run env svc events =
        ([], .exitFailure ("Failed to create Ollama client: " ++ e))) ∧
    (env.clientBuild = .ok () → env.fileExists = false →
      main_run env svc events =
        ([.readingMsg], .exitFailure
          ("File \x27" ++ PDF_PATH ++ "\x27 not found! Please place it in the project folder."))) ∧
    (∀ e, env.clientBuild = .ok () → env.fileExists = true →
      env.extract = .error e →
      main_run env svc events =
        ([.readingMsg], .exitFailure ("Failed to extract text from PDF: " ++ e))) ∧
    (∀ t e, env.clientBuild = .ok () → env.fileExists = true →
      env.extract = .ok t → env.docAdd = .error e →
      main_run env svc events =
        ([.readingMsg, .creatingMsg],
          .exitFailure ("Failed to create document embedding: " ++ e))) ∧
    (∀ t e, env.clientBuild = .ok () → env.fileExists = true →
      env.extract = .ok t → env.docAdd = .ok () → env.embed = .error e →
      main_run env svc events =
        ([.readingMsg, .creatingMsg],
          .exitFailure ("Failed to build embeddings: " ++ e))) := by
  refine ⟨?_, ?_, ?_, ?_, ?_⟩
  · intro e hc
    simp [main_run, hc]
  · intro hc hf
    simp [main_run, hc, hf, load_pdf_content]
  · intro e hc hf hx
    simp [main_run, hc, hf, hx, load_pdf_content]
  · intro t e hc hf hx hd
    simp [main_run, hc, hf, hx, hd, load_pdf_content, build_vector_store]
  · intro t e hc hf hx hd hv
    simp [main_run, hc, hf, hx, hd, hv, load_pdf_content, build_vector_store]

/-- Concrete instantiation of C3: each of the five initialization failures
aborts the process before any chat-loop output, even though a console line
was available to read. -/
theorem init_failure_fatal_witness :
    main_run envNoClient svcFaulty [.line ("hi")] =
      ([], .exitFailure ("Failed to create Ollama client: " ++ "down")) ∧
    main_run envNoFile svcFaulty [.line ("hi")] =
      ([.readingMsg], .exitFailure
        ("File \x27" ++ PDF_PATH ++ "\x27 not found! Please place it in the project folder.")) ∧
    main_run envBadPdf svcFaulty [.line ("hi")] =
      ([.readingMsg], .exitFailure ("Failed to extract text from PDF: " ++ "corrupt")) ∧
    main_run envBadDoc svcFaulty [.line ("hi")] =
      ([.readingMsg, .creatingMsg],
        .exitFailure ("Failed to create document embedding: " ++ "too long")) ∧
    main_run envBadEmbed svcFaulty [.line ("hi")] =
      ([.readingMsg, .creatingMsg],
        .exitFailure ("Failed to build embeddings: " ++ "offline")) :=
  ⟨(init_failure_fatal envNoClient svcFaulty [.line ("hi")]).1 ("down") rfl,
    (init_failure_fatal envNoFile svcFaulty [.line ("hi")]).2.1 rfl rfl,
    (init_failure_fatal envBadPdf svcFaulty [.line ("hi")]).2.2.1 ("corrupt") rfl rfl rfl,
    (init_failure_fatal envBadDoc svcFaulty [.line ("hi")]).2.2.2.1 ("text") ("too long")
      rfl rfl rfl rfl,
    (init_failure_fatal envBadEmbed svcFaulty [.line ("hi")]).2.2.2.2 ("text") ("offline")
      rfl rfl rfl rfl rfl⟩

/-- C4: the Vector Index query returns exactly `min k n` entries where `n` is
the index size — so never more than `k`, never more than the index holds, all
of them when the index holds fewer than `k` — and `k = 0` returns the empty
sequence. -/
theorem query_length_bounds (idx : List (String × List ℚ)) (v : List ℚ)
    (k : Nat) :
    (query idx v k).length = min k idx.length ∧ query idx v 0 = [] := by
  have hlen : (List.insertionSort scoreGe (scoredEntries idx v)).length =
      idx.length := by
    rw [(List.perm_insertionSort scoreGe (scoredEntries idx v)).length_eq]
    simp [scoredEntries]
  exact ⟨by simp [query, hlen], by simp [query]⟩

/-- Inserting an entry whose score equals `s` into a list places it before
the entries the insertion skips, all of which have a score above `s`, so the
score-`s` entries of the result are the inserted entry followed by those of
the original list. -/
theorem filter_orderedInsert_of_eq (s : ℚ) (x : String × ℚ) (hx : x.2 = s) :
    ∀ l : List (String × ℚ),
      (List.orderedInsert scoreGe x l).filter (fun e => decide (e.2 = s)) =
        x :: l.filter (fun e => decide (e.2 = s))
  | [] => by simp [hx]
  | y :: l => by
    by_cases hr : scoreGe x y
    · simp only [List.orderedInsert, if_pos hr]
      simp [List.filter_cons, hx]
    · have hy : ¬ (y.2 = s) := by
        intro hys
        exact hr (le_of_eq (hys.trans hx.symm))
      simp only [List.orderedInsert, if_neg hr]
      simp [List.filter_cons, hy, filter_orderedInsert_of_eq s x hx l]

/-- Inserting an entry whose score differs from `s` leaves the score-`s`
entries of a list unchanged and in order. -/
theorem filter_orderedInsert_of_ne (s : ℚ) (x : String × ℚ) (hx : ¬ (x.2 = s)) :
    ∀ l : List (String × ℚ),
      (List.orderedInsert scoreGe x l).filter (fun e => decide (e.2 = s)) =
        l.filter (fun e => decide (e.2 = s))
  | [] => by simp [hx]
  | y :: l => by
    by_cases hr : scoreGe x y
    · simp only [List.orderedInsert, if_pos hr]
      simp [List.filter_cons, hx]
    · simp only [List.orderedInsert, if_neg hr]
      simp [List.filter_cons, filter_orderedInsert_of_ne s x hx l]

/-- Stability of the ranking sort: for every score `s`, the score-`s` entries
of the sorted list are exactly the score-`s` entries of the input, in the
input (insertion) order. -/
theorem filter_insertionSort_score (s : ℚ) :
    ∀ l : List (String × ℚ),
      (List.insertionSort scoreGe l).filter (fun e => decide (e.2 = s)) =
        l.filter (fun e => decide (e.2 = s))
  | [] => rfl
  | x :: l => by
    by_cases hx : x.2 = s
    · simp only [List.insertionSort]
      rw [filter_orderedInsert_of_eq s x hx _, filter_insertionSort_score s l]
      simp [List.filter_cons, hx]
    · simp only [List.insertionSort]
      rw [filter_orderedInsert_of_ne s x hx _, filter_insertionSort_score s l]
      simp [List.filter_cons, hx]

/-- C5: the Vector Index query is ordered by non-increasing similarity score,
and tie-breaking is stable: for every score `s`, the score-`s` entries of the
returned sequence are an initial run of the score-`s` entries of the scored
index in insertion order (earlier-inserted entries first). -/
theorem query_sorted_stable (idx : List (String × List ℚ)) (v : List ℚ)
    (k : Nat) (s : ℚ) :
    List.Pairwise scoreGe (query idx v k) ∧
    ∃ t, (scoredEntries idx v).filter (fun e => decide (e.2 = s)) =
      (query idx v k).filter (fun e => decide (e.2 = s)) ++ t := by
  constructor
  · exact List.Pairwise.sublist (List.take_sublist k _)
      (List.sorted_insertionSort scoreGe (scoredEntries idx v))
  · refine ⟨((List.insertionSort scoreGe (scoredEntries idx v)).drop k).filter
      (fun e => decide (e.2 = s)), ?_⟩
    rw [query, ← List.filter_append, List.take_append_drop,
      filter_insertionSort_score s _]

/-- C7: self-retrieval: an index built from the single entry `T` and queried
with the embedding of `T` at `k = 1` returns `T` as the top match, with a
score that is maximal among all stored entries. -/
theorem self_query_top_match (embed : String → List ℚ) (T : String) :
    query [(T, embed T)] (embed T) 1 =
      [(T, dotScore (embed T) (embed T))] ∧
    ∀ e ∈ scoredEntries [(T, embed T)] (embed T),
      e.2 ≤ dotScore (embed T) (embed T) := by
  constructor
  · simp [query, scoredEntries, List.insertionSort]
  · intro e he
    simp only [scoredEntries, List.map_cons, List.map_nil, List.mem_singleton] at he
    rw [he]

/-- Concrete instantiation of C7: with a fixed abstract embedding, the single
stored document is the top match for its own embedding and its score is
maximal among the stored entries. -/
theorem self_query_top_match_witness :
    query [("The sky is blue.", [])] [] 1 = [("The sky is blue.", 0)] ∧
    (("The sky is blue.", (0 : ℚ)).2 ≤ 0) := by
  have h := self_query_top_match (fun _ => ([] : List ℚ)) ("The sky is blue.")
  refine ⟨?_, h.2 ("The sky is blue.", 0) (by decide)⟩
  have h0 : dotScore ([] : List ℚ) ([] : List ℚ) = 0 := rfl
  simpa [h0] using h.1

/-- C6: contract of `load_pdf_content`: a missing file fails with a message
containing the exact path; an existing file returns the complete extracted
text on success or fails with the distinct extraction-context error; success
is all-or-nothing — a returned text is exactly the full extraction result;
and the missing-file message never coincides with an extraction-failure
message. -/
theorem load_pdf_content_contract (extract : Except String String)
    (path : String) :
    (load_pdf_content false extract path =
      .error ("File \x27" ++ path ++ "\x27 not found! Please place it in the project folder.")) ∧
    (∀ t, extract = .ok t → load_pdf_content true extract path = .ok t) ∧
    (∀ e, extract = .error e →
      load_pdf_content true extract path =
        .error ("Failed to extract text from PDF: " ++ e)) ∧
    (∀ fe t, load_pdf_content fe extract path = .ok t →
      extract = .ok t ∧ fe = true) ∧
    (∀ e, ("File \x27" ++ path ++ "\x27 not found! Please place it in the project folder.") ≠
      ("Failed to extract text from PDF: " ++ e)) := by
  refine ⟨by simp [load_pdf_content], ?_, ?_, ?_, ?_⟩
  · intro t hx
    simp [load_pdf_content, hx]
  · intro e hx
    simp [load_pdf_content, hx]
  · intro fe t hload
    cases fe with
    | false => simp [load_pdf_content] at hload
    | true =>
      cases hx : extract with
      | ok u =>
        simp [load_pdf_content, hx] at hload
        subst hload
        exact ⟨rfl, rfl⟩
      | error e =>
        simp [load_pdf_content, hx] at hload
  · intro e h
    have hd := congrArg (fun m => m.data.take 2) h
    simp at hd

/-- Concrete instantiation of C6: a missing `knowledge.pdf` fails with the
message naming the path, extraction success returns the full text, extraction
failure carries its own context, a successful load certifies a full
extraction, and the two failure messages differ. -/
theorem load_pdf_content_contract_witness :
    (load_pdf_content false (.ok ("text")) ("knowledge.pdf") =
      .error ("File \x27" ++ "knowledge.pdf" ++ "\x27 not found! Please place it in the project folder.")) ∧
    (load_pdf_content true (.ok ("text")) ("knowledge.pdf") = .ok ("text")) ∧
    (load_pdf_content true (.error ("corrupt")) ("knowledge.pdf") =
      .error ("Failed to extract text from PDF: " ++ "corrupt")) ∧
    ((Except.ok ("text") : Except String String) = .ok ("text") ∧ true = true) ∧
    (("File \x27" ++ "knowledge.pdf" ++ "\x27 not found! Please place it in the project folder.") ≠
      ("Failed to extract text from PDF: " ++ "corrupt")) :=
  ⟨(load_pdf_content_contract (.ok ("text")) ("knowledge.pdf")).1,
    (load_pdf_content_contract (.ok ("text")) ("knowledge.pdf")).2.1 ("text") rfl,
    (load_pdf_content_contract (.error ("corrupt")) ("knowledge.pdf")).2.2.1 ("corrupt") rfl,
    (load_pdf_content_contract (.ok ("text")) ("knowledge.pdf")).2.2.2.1 true ("text") rfl,
    (load_pdf_content_contract (.ok ("text")) ("knowledge.pdf")).2.2.2.2 ("corrupt")⟩

end Perso
